import Mathlib

/-!
Verification of the arrow-ballista-python query-building layer.

The development shallowly embeds the two source files of the repository:
`src/dataframe.rs` (the `PyDataFrame` plan builder) and `src/functions.rs`
(the expression constructors).  External engine primitives (datafusion plan
construction, execution, and arrow pretty printing) are treated as black
boxes: definitions take them as explicit function parameters, or model the
exact plan node the engine documents itself to build.
-/

namespace Ballista

/-! ### Expression model (`datafusion_expr::Expr` as used by `src/functions.rs`) -/

/-- Engine scalar-function identifiers (`BuiltinScalarFunction`); only the
identifiers the development reasons about are listed. -/
inductive ScalarFun where
  | CharacterLength
  | Power
  | MakeArray
  deriving DecidableEq

/-- Engine aggregate-function identifiers (`AggregateFunction`). -/
inductive AggFun where
  | Avg
  | Count
  | Max
  | Min
  | Sum
  | ApproxDistinct
  deriving DecidableEq

/-- Engine window-function identifiers, the codomain of the engine's
`find_df_window_func` name table. -/
inductive WindowFun where
  | rowNumber
  | rank
  | denseRank
  | lag
  | lead
  | firstValue
  | lastValue
  | aggregate (f : AggFun)
  deriving DecidableEq

/-- `WindowFrame::new(has_order_by)`: a frame specification whose shape depends
only on whether an order-by list was supplied. -/
inductive WindowFrame where
  | new (hasOrderBy : Bool)
  deriving DecidableEq

/-- The expression tree (`datafusion_expr::Expr`) restricted to the node kinds
the builder layer constructs. -/
inductive Expr where
  | column (name : String)
  | literal (n : Int)
  | scalarFunction (f : ScalarFun) (args : List Expr)
  | aggregateFunction (f : AggFun) (args : List Expr) (distinct : Bool) (filter : Option Expr)
  | windowFunction (f : WindowFun) (args : List Expr) (partitionBy : List Expr)
      (orderBy : List Expr) (frame : WindowFrame)
  | sortExpr (expr : Expr) (asc : Bool) (nullsFirst : Bool)
  | aliasExpr (expr : Expr) (name : String)

/-- Python-level errors surfaced by the binding layer. -/
inductive PyErr where
  | typeError (msg : String)
  | extractFailed
  | dataFusion (msg : String)
  | engine (msg : String)
  | arrow (msg : String)
  deriving DecidableEq

/-! ### `src/functions.rs`: expression constructors -/

/-- `order_by(expr, asc, nulls_first)` from `src/functions.rs`: builds a Sort
expression, defaulting both options to `true` via `unwrap_or(true)`. -/
def order_by (expr : Expr) (asc : Option Bool) (nulls_first : Option Bool) :
    Except PyErr Expr :=
  .ok (.sortExpr expr (asc.getD true) (nulls_first.getD true))

/-- Result of calling the Rust `window` function: either a normal return or a
panic.  `Option::unwrap` on `None` panics the calling thread; a panic is not a
`PyResult` error value. -/
inductive WindowBuild where
  | ok (e : Expr)
  | panicked

/-- `window(name, args, partition_by, order_by)` from `src/functions.rs`.  The
engine's name table `find_df_window_func` is external and passed as a
parameter.  The source calls `.unwrap()` on its result, so an unresolved name
panics instead of producing an error return. -/
def window (find_df_window_func : String → Option WindowFun) (name : String)
    (args : List Expr) (partition_by : Option (List Expr))
    (order_by : Option (List Expr)) : WindowBuild :=
  match find_df_window_func name with
  | none => .panicked
  | some f =>
    .ok (.windowFunction f args (partition_by.getD []) (order_by.getD [])
      (WindowFrame.new order_by.isSome))

/-! Scalar constructors generated by the `scalar_function!` macro of
`src/functions.rs`; each builds `Expr::ScalarFunction` with the given engine
identifier and the argument list unchanged. -/

def character_length (args : List Expr) : Expr := .scalarFunction .CharacterLength args

def length (args : List Expr) : Expr := .scalarFunction .CharacterLength args

def char_length (args : List Expr) : Expr := .scalarFunction .CharacterLength args

def power (args : List Expr) : Expr := .scalarFunction .Power args

def pow (args : List Expr) : Expr := .scalarFunction .Power args

def make_array (args : List Expr) : Expr := .scalarFunction .MakeArray args

def array (args : List Expr) : Expr := .scalarFunction .MakeArray args

/-! Aggregate constructors generated by the `aggregate_function!` macro of
`src/functions.rs`; each builds `Expr::AggregateFunction` with the given
engine identifier, the argument list, the `distinct` flag, and `filter: None`.
The `...Py` wrappers model the pyo3 attribute `distinct = "false"`: the
Python-level default substituted when the caller omits the flag. -/

def avg (args : List Expr) (distinct : Bool) : Expr :=
  .aggregateFunction .Avg args distinct none

def count (args : List Expr) (distinct : Bool) : Expr :=
  .aggregateFunction .Count args distinct none

def max (args : List Expr) (distinct : Bool) : Expr :=
  .aggregateFunction .Max args distinct none

def min (args : List Expr) (distinct : Bool) : Expr :=
  .aggregateFunction .Min args distinct none

def sum (args : List Expr) (distinct : Bool) : Expr :=
  .aggregateFunction .Sum args distinct none

def approx_distinct (args : List Expr) (distinct : Bool) : Expr :=
  .aggregateFunction .ApproxDistinct args distinct none

def avgPy (args : List Expr) (distinct : Option Bool) : Expr :=
  avg args (distinct.getD false)

def countPy (args : List Expr) (distinct : Option Bool) : Expr :=
  count args (distinct.getD false)

def maxPy (args : List Expr) (distinct : Option Bool) : Expr :=
  max args (distinct.getD false)

def minPy (args : List Expr) (distinct : Option Bool) : Expr :=
  min args (distinct.getD false)

def sumPy (args : List Expr) (distinct : Option Bool) : Expr :=
  sum args (distinct.getD false)

def approx_distinctPy (args : List Expr) (distinct : Option Bool) : Expr :=
  approx_distinct args (distinct.getD false)

/-! ### Claims about the expression constructors -/

/-- C8: `orderBy(e)` with neither option supplied yields a SortSpec node with
ascending = true and nulls-first = true; a supplied option is used instead of
the default. -/
theorem C8_order_by_defaults (e : Expr) (b nf : Bool) :
    order_by e none none = .ok (.sortExpr e true true) ∧
    order_by e (some b) none = .ok (.sortExpr e b true) ∧
    order_by e none (some nf) = .ok (.sortExpr e true nf) ∧
    order_by e (some b) (some nf) = .ok (.sortExpr e b nf) :=
  ⟨rfl, rfl, rfl, rfl⟩

/-- C9: each aggregate constructor in {avg, count, max, min, sum,
approx_distinct} returns an AggregateFunctionCall node tagged with the
corresponding engine aggregate function, carrying the given arguments and a
distinct flag that is false when unspecified. -/
theorem C9_aggregate_constructors (args : List Expr) (d : Bool) :
    (avg args d = .aggregateFunction .Avg args d none ∧ avgPy args none = avg args false) ∧
    (count args d = .aggregateFunction .Count args d none ∧ countPy args none = count args false) ∧
    (max args d = .aggregateFunction .Max args d none ∧ maxPy args none = max args false) ∧
    (min args d = .aggregateFunction .Min args d none ∧ minPy args none = min args false) ∧
    (sum args d = .aggregateFunction .Sum args d none ∧ sumPy args none = sum args false) ∧
    (approx_distinct args d = .aggregateFunction .ApproxDistinct args d none ∧
      approx_distinctPy args none = approx_distinct args false) :=
  ⟨⟨rfl, rfl⟩, ⟨rfl, rfl⟩, ⟨rfl, rfl⟩, ⟨rfl, rfl⟩, ⟨rfl, rfl⟩, ⟨rfl, rfl⟩⟩

/-- C10: `length`, `char_length` and `character_length` build the identical
ScalarFunctionCall (engine identifier CharacterLength, same arguments);
likewise `pow` equals `power`, and `array` equals `make_array`. -/
theorem C10_scalar_aliases (args : List Expr) :
    length args = character_length args ∧
    char_length args = character_length args ∧
    character_length args = .scalarFunction .CharacterLength args ∧
    pow args = power args ∧
    power args = .scalarFunction .Power args ∧
    array args = make_array args ∧
    make_array args = .scalarFunction .MakeArray args :=
  ⟨rfl, rfl, rfl, rfl, rfl, rfl, rfl⟩

/-! ### `src/dataframe.rs`: the `PyDataFrame` plan builder

A `PyDataFrame` wraps `Arc<DataFrame>`.  Every method takes `&self`, clones the
wrapped plan (`self.df.as_ref().clone()`), hands it to an engine primitive and
wraps the engine's result in a fresh `Arc` (`Self::new`).  The `Arc`
allocations are modelled by an append-only store of plans; a builder is an
index into the store.  Engine primitives are black boxes passed as function
parameters, except `DataFrame::limit`, which the engine documents to build a
limit plan node with the given skip and fetch. -/

/-- Engine join-type values (`datafusion::logical_expr::JoinType`). -/
inductive JoinType where
  | Inner
  | Left
  | Right
  | Full
  | LeftSemi
  | LeftAnti
  | RightSemi
  deriving DecidableEq

/-- Logical plans.  Only the nodes the development needs concretely are
listed: an opaque source relation carrying its rows, and the limit node built
by `DataFrame::limit`. -/
inductive LogicalPlan where
  | source (rows : List Nat)
  | limit (skip : Nat) (fetch : Option Nat) (input : LogicalPlan)
  deriving DecidableEq

/-- Modelled from the spec: the engine's row semantics for the plan nodes
listed above — a source yields its rows, and a limit node skips `skip` rows
and then yields at most `fetch` rows (all remaining rows when `fetch` is
absent). -/
def LogicalPlan.run : LogicalPlan → List Nat
  | .source rows => rows
  | .limit skip fetch input => ((input.run).drop skip).take (fetch.getD (input.run).length)

/-- The append-only store of `Arc`-allocated plans. -/
structure Store where
  plans : List LogicalPlan
  deriving DecidableEq

/-- Dereference a builder handle. -/
def Store.get (s : Store) (i : Nat) : Option LogicalPlan := s.plans[i]?

/-- `Arc::new` on an engine result: append the plan, return its fresh index. -/
def Store.alloc (s : Store) (pl : LogicalPlan) : Store × Nat :=
  (⟨s.plans ++ [pl]⟩, s.plans.length)

/-- The shared body of every transformation method of `PyDataFrame`:
`Ok(Self::new(self.df.as_ref().clone().op(..)?))` — dereference the receiver,
apply the engine primitive, propagate its error unchanged, allocate the new
plan on success. -/
def transform (op : LogicalPlan → Except PyErr LogicalPlan) (s : Store) (i : Nat) :
    Store × Except PyErr Nat :=
  match s.get i with
  | none => (s, .error (.engine "invalid dataframe handle"))
  | some pl =>
    match op pl with
    | .error e => (s, .error e)
    | .ok res =>
      let (new, k) := s.alloc res
      (new, .ok k)

/-- `PyDataFrame::select_columns`. -/
def select_columnsM (args : List String)
    (engine_select_columns : List String → LogicalPlan → Except PyErr LogicalPlan)
    (s : Store) (i : Nat) : Store × Except PyErr Nat :=
  transform (engine_select_columns args) s i

/-- `PyDataFrame::select`. -/
def selectM (args : List Expr)
    (engine_select : List Expr → LogicalPlan → Except PyErr LogicalPlan)
    (s : Store) (i : Nat) : Store × Except PyErr Nat :=
  transform (engine_select args) s i

/-- `PyDataFrame::filter`. -/
def filterM (predicate : Expr)
    (engine_filter : Expr → LogicalPlan → Except PyErr LogicalPlan)
    (s : Store) (i : Nat) : Store × Except PyErr Nat :=
  transform (engine_filter predicate) s i

/-- `PyDataFrame::with_column`. -/
def with_columnM (name : String) (expr : Expr)
    (engine_with_column : String → Expr → LogicalPlan → Except PyErr LogicalPlan)
    (s : Store) (i : Nat) : Store × Except PyErr Nat :=
  transform (engine_with_column name expr) s i

/-- `PyDataFrame::aggregate`. -/
def aggregateM (group_by : List Expr) (aggs : List Expr)
    (engine_aggregate : List Expr → List Expr → LogicalPlan → Except PyErr LogicalPlan)
    (s : Store) (i : Nat) : Store × Except PyErr Nat :=
  transform (engine_aggregate group_by aggs) s i

/-- `PyDataFrame::sort`. -/
def sortM (exprs : List Expr)
    (engine_sort : List Expr → LogicalPlan → Except PyErr LogicalPlan)
    (s : Store) (i : Nat) : Store × Except PyErr Nat :=
  transform (engine_sort exprs) s i

/-- The engine primitive `DataFrame::limit(skip, fetch)`: builds a limit plan
node over the current plan (spec §6, logical-plan construction primitives). -/
def engineLimit (skip : Nat) (fetch : Option Nat) (pl : LogicalPlan) :
    Except PyErr LogicalPlan :=
  .ok (.limit skip fetch pl)

/-- `PyDataFrame::limit(count)`: calls the engine with skip `0` and fetch
`Some(count)`. -/
def limitM (count : Nat) (s : Store) (i : Nat) : Store × Except PyErr Nat :=
  transform (engineLimit 0 (some count)) s i

/-- The error message built by `PyDataFrame::join` for an unknown token. -/
def joinErrorMessage (how : String) : String :=
  "The join type " ++ how ++ " does not exist or is not implemented"

/-- The join-type resolution match of `PyDataFrame::join` (the spec's
JoinResolver). -/
def joinTypeOfHow (how : String) : Except String JoinType :=
  if how = "inner" then .ok .Inner
  else if how = "left" then .ok .Left
  else if how = "right" then .ok .Right
  else if how = "full" then .ok .Full
  else if how = "semi" then .ok .LeftSemi
  else if how = "anti" then .ok .LeftAnti
  else if how = "right_semi" then .ok .RightSemi
  else .error (joinErrorMessage how)

/-- `PyDataFrame::join(right, join_keys, how)`: resolves `how` first and
returns its error before touching the engine; otherwise calls the engine join
primitive and allocates the result. -/
def joinM (right : Nat) (join_keys : List String × List String) (how : String)
    (engine_join : LogicalPlan → JoinType → List String → List String → LogicalPlan →
      Except PyErr LogicalPlan)
    (s : Store) (i : Nat) : Store × Except PyErr Nat :=
  match joinTypeOfHow how with
  | .error msg => (s, .error (.dataFusion msg))
  | .ok join_type =>
    match s.get i, s.get right with
    | some pl, some rpl =>
      match engine_join pl join_type join_keys.1 join_keys.2 rpl with
      | .error e => (s, .error e)
      | .ok res =>
        let (new, k) := s.alloc res
        (new, .ok k)
    | _, _ => (s, .error (.engine "invalid dataframe handle"))

/-! `__getitem__` and its key shapes. -/

/-- A Python value examined by pyo3 extraction: a string, or anything else. -/
inductive PyVal where
  | str (s : String)
  | nonStr (tag : Nat)
  deriving DecidableEq

/-- Whether a Python value is a string. -/
def PyVal.isStr : PyVal → Bool
  | .str _ => true
  | .nonStr _ => false

/-- The shape of a `__getitem__` key: a string, a tuple, a list, or any other
Python object. -/
inductive PyKey where
  | str (s : String)
  | tuple (items : List PyVal)
  | list (items : List PyVal)
  | other (tag : Nat)
  deriving DecidableEq

/-- pyo3 `item.extract::<&str>()`: succeeds on a string, otherwise fails with
the extraction error. -/
def extractStr : PyVal → Except PyErr String
  | .str s => .ok s
  | .nonStr _ => .error .extractFailed

/-- Extraction of a whole item sequence, stopping at the first failure
(the `collect::<PyResult<Vec<&str>>>()?` of the tuple branch, and pyo3's
`Vec<&str>` extraction for the list branch). -/
def extractStrs : List PyVal → Except PyErr (List String)
  | [] => .ok []
  | v :: rest =>
    match extractStr v with
    | .error e => .error e
    | .ok sv =>
      match extractStrs rest with
      | .error e => .error e
      | .ok svs => .ok (sv :: svs)

/-- The message of the explicit `PyTypeError` raised by `__getitem__`. -/
def invalidIndexMessage : String :=
  "DataFrame can only be indexed by string index or indices"

/-- `PyDataFrame::__getitem__(key)`: a string key selects that column; a tuple
extracts every item as a string, propagating the first extraction error via
`?`; a list whose extraction as `Vec<&str>` fails falls through to the final
branch, which raises the explicit `PyTypeError`; so does any other key. -/
def getitemM (key : PyKey)
    (engine_select_columns : List String → LogicalPlan → Except PyErr LogicalPlan)
    (s : Store) (i : Nat) : Store × Except PyErr Nat :=
  match key with
  | .str k => select_columnsM [k] engine_select_columns s i
  | .tuple items =>
    match extractStrs items with
    | .error e => (s, .error e)
    | .ok keys => select_columnsM keys engine_select_columns s i
  | .list items =>
    match extractStrs items with
    | .error _ => (s, .error (.typeError invalidIndexMessage))
    | .ok keys => select_columnsM keys engine_select_columns s i
  | .other _ => (s, .error (.typeError invalidIndexMessage))

/-! Execution and presentation. -/

/-- A materialized columnar block of rows. -/
structure RecordBatch where
  rows : List Nat
  deriving DecidableEq

/-- The host-native columnar object produced by `rb.to_pyarrow(py)`; it wraps
the batch content unchanged. -/
structure PyObj where
  rb : RecordBatch
  deriving DecidableEq

/-- `PyDataFrame::collect`: executes the plan through the engine bridge and
converts every batch to a host-native object. -/
def collectM (engine_collect : LogicalPlan → Except PyErr (List RecordBatch))
    (s : Store) (i : Nat) : Store × Except PyErr (List PyObj) :=
  match s.get i with
  | none => (s, .error (.engine "invalid dataframe handle"))
  | some pl =>
    match engine_collect pl with
    | .error e => (s, .error e)
    | .ok batches => (s, .ok (batches.map PyObj.mk))

/-- `pretty::print_batches`: arrow's printer writes to stdout exactly the text
that `pretty::pretty_format_batches` renders; the result below is the text
written.  A formatting failure is mapped to `PyArrowException`, as both call
sites in the source do. -/
def printBatches (pretty_format : List RecordBatch → Except String String)
    (batches : List RecordBatch) : Except PyErr String :=
  match pretty_format batches with
  | .error e => .error (.arrow e)
  | .ok out => .ok out

/-- `PyDataFrame::show(num)`: limits to `num` rows via the engine, collects,
and pretty-prints.  The result is the text written to stdout. -/
def showM (num : Nat)
    (engine_collect : LogicalPlan → Except PyErr (List RecordBatch))
    (pretty_format : List RecordBatch → Except String String)
    (s : Store) (i : Nat) : Store × Except PyErr String :=
  match s.get i with
  | none => (s, .error (.engine "invalid dataframe handle"))
  | some pl =>
    match engineLimit 0 (some num) pl with
    | .error e => (s, .error e)
    | .ok dfp =>
      match engine_collect dfp with
      | .error e => (s, .error e)
      | .ok batches => (s, printBatches pretty_format batches)

/-- The pyo3 attribute `num = "20"`: the Python-level default substituted when
the caller omits `num`. -/
def showPyM (num : Option Nat)
    (engine_collect : LogicalPlan → Except PyErr (List RecordBatch))
    (pretty_format : List RecordBatch → Except String String)
    (s : Store) (i : Nat) : Store × Except PyErr String :=
  showM (num.getD 20) engine_collect pretty_format s i

/-- The composite program `p.limit(num)` then `.collect()` then
pretty-printing the content of the collected batches. -/
def limitCollectPrintM (num : Nat)
    (engine_collect : LogicalPlan → Except PyErr (List RecordBatch))
    (pretty_format : List RecordBatch → Except String String)
    (s : Store) (i : Nat) : Store × Except PyErr String :=
  match limitM num s i with
  | (s1, .error e) => (s1, .error e)
  | (s1, .ok k) =>
    match collectM engine_collect s1 k with
    | (s2, .error e) => (s2, .error e)
    | (s2, .ok objs) => (s2, printBatches pretty_format (objs.map PyObj.rb))

/-- `PyDataFrame::explain(verbose, analyze)`: builds the engine's explain plan,
collects its batches, pretty-prints them.  The result is the text written to
stdout. -/
def explainM (verbose analyze : Bool)
    (engine_explain : Bool → Bool → LogicalPlan → Except PyErr LogicalPlan)
    (engine_collect : LogicalPlan → Except PyErr (List RecordBatch))
    (pretty_format : List RecordBatch → Except String String)
    (s : Store) (i : Nat) : Store × Except PyErr String :=
  match s.get i with
  | none => (s, .error (.engine "invalid dataframe handle"))
  | some pl =>
    match engine_explain verbose analyze pl with
    | .error e => (s, .error e)
    | .ok dfp =>
      match engine_collect dfp with
      | .error e => (s, .error e)
      | .ok batches => (s, printBatches pretty_format batches)

/-- `PyDataFrame::explain_string(verbose, analyze)`: same pipeline, but the
formatted text is returned (`format!("{}", display)` renders the arrow display
value, which is the formatted string itself). -/
def explain_stringM (verbose analyze : Bool)
    (engine_explain : Bool → Bool → LogicalPlan → Except PyErr LogicalPlan)
    (engine_collect : LogicalPlan → Except PyErr (List RecordBatch))
    (pretty_format : List RecordBatch → Except String String)
    (s : Store) (i : Nat) : Store × Except PyErr String :=
  match s.get i with
  | none => (s, .error (.engine "invalid dataframe handle"))
  | some pl =>
    match engine_explain verbose analyze pl with
    | .error e => (s, .error e)
    | .ok dfp =>
      match engine_collect dfp with
      | .error e => (s, .error e)
      | .ok batches =>
        match pretty_format batches with
        | .error e => (s, .error (.arrow e))
        | .ok display => (s, .ok display)

/-! ### Store lemmas -/

theorem Store.get_alloc_lt (s : Store) (pl : LogicalPlan) (j : Nat)
    (h : j < s.plans.length) : (s.alloc pl).1.get j = s.get j := by
  simp [Store.alloc, Store.get, List.getElem?_append, h]

theorem Store.get_alloc_self (s : Store) (pl : LogicalPlan) :
    (s.alloc pl).1.get (s.alloc pl).2 = some pl := by
  simp [Store.alloc, Store.get]

/-- The non-mutation contract of a builder method: entries of the store that
were valid before the call are unchanged, a successful result is a fresh
handle (the next index, beyond every previously valid one), and on failure the
store is returned exactly as it was. -/
def NonMutating (f : Store → Nat → Store × Except PyErr Nat) : Prop :=
  ∀ s i,
    (∀ j, j < s.plans.length → (f s i).1.get j = s.get j) ∧
    (∀ k, (f s i).2 = .ok k → k = s.plans.length ∧
      s.plans.length < (f s i).1.plans.length) ∧
    (∀ e, (f s i).2 = .error e → (f s i).1 = s)

theorem transform_nonMutating (op : LogicalPlan → Except PyErr LogicalPlan) :
    NonMutating (transform op) := by
  intro s i
  refine ⟨?_, ?_, ?_⟩
  · intro j hj
    cases h : s.get i with
    | none => simp [transform, h]
    | some pl =>
      cases hop : op pl with
      | error e => simp [transform, h, hop]
      | ok res => simpa [transform, h, hop] using Store.get_alloc_lt s res j hj
  · intro k hk
    cases h : s.get i with
    | none => simp [transform, h] at hk
    | some pl =>
      cases hop : op pl with
      | error e => simp [transform, h, hop] at hk
      | ok res =>
        simp [transform, h, hop, Store.alloc] at hk
        simp [transform, h, hop, Store.alloc, hk]
  · intro e he
    cases h : s.get i with
    | none => simp [transform, h]
    | some pl =>
      cases hop : op pl with
      | error e' => simp [transform, h, hop]
      | ok res => simp [transform, h, hop] at he

theorem joinM_nonMutating (right : Nat) (join_keys : List String × List String)
    (how : String)
    (engine_join : LogicalPlan → JoinType → List String → List String → LogicalPlan →
      Except PyErr LogicalPlan) :
    NonMutating (joinM right join_keys how engine_join) := by
  intro s i
  cases hres : joinTypeOfHow how with
  | error msg => refine ⟨?_, ?_, ?_⟩ <;> simp [joinM, hres]
  | ok jt =>
    cases h1 : s.get i with
    | none => refine ⟨?_, ?_, ?_⟩ <;> simp [joinM, hres, h1]
    | some pl =>
      cases h2 : s.get right with
      | none => refine ⟨?_, ?_, ?_⟩ <;> simp [joinM, hres, h1, h2]
      | some rpl =>
        cases hj : engine_join pl jt join_keys.1 join_keys.2 rpl with
        | error e => refine ⟨?_, ?_, ?_⟩ <;> simp [joinM, hres, h1, h2, hj]
        | ok res =>
          refine ⟨?_, ?_, ?_⟩
          · intro j hjlt
            simpa [joinM, hres, h1, h2, hj] using Store.get_alloc_lt s res j hjlt
          · intro k hk
            simp [joinM, hres, h1, h2, hj, Store.alloc] at hk
            simp [joinM, hres, h1, h2, hj, Store.alloc, hk]
          · intro e he
            simp [joinM, hres, h1, h2, hj] at he

/-- C4: no public transformation (selectColumns, select, filter, withColumn,
aggregate, sort, limit, join) ever mutates the receiver's underlying logical
plan: previously valid handles still dereference to the same plans, a success
returns a fresh builder wrapping a newly allocated plan, and on failure the
store is exactly as before, so the receiver remains usable. -/
theorem C4_transformations_nonmutating :
    (∀ cols eng, NonMutating (select_columnsM cols eng)) ∧
    (∀ exprs eng, NonMutating (selectM exprs eng)) ∧
    (∀ pred eng, NonMutating (filterM pred eng)) ∧
    (∀ name expr eng, NonMutating (with_columnM name expr eng)) ∧
    (∀ gb aggs eng, NonMutating (aggregateM gb aggs eng)) ∧
    (∀ exprs eng, NonMutating (sortM exprs eng)) ∧
    (∀ c, NonMutating (limitM c)) ∧
    (∀ r jk how ej, NonMutating (joinM r jk how ej)) :=
  ⟨fun _ _ => transform_nonMutating _, fun _ _ => transform_nonMutating _,
   fun _ _ => transform_nonMutating _, fun _ _ _ => transform_nonMutating _,
   fun _ _ _ => transform_nonMutating _, fun _ _ => transform_nonMutating _,
   fun _ => transform_nonMutating _, fun r jk how ej => joinM_nonMutating r jk how ej⟩

/-- Witness for C4 at a concrete store: after a failed join (unknown token) the
store is unchanged, and after a successful limit the old handle still yields
the old plan. -/
theorem C4_transformations_nonmutating_witness :
    (joinM 0 ([], []) "bogus" (fun pl _ _ _ _ => Except.ok pl)
        ⟨[LogicalPlan.source [1, 2, 3]]⟩ 0).1 = ⟨[LogicalPlan.source [1, 2, 3]]⟩ ∧
    (limitM 5 ⟨[LogicalPlan.source [1, 2, 3]]⟩ 0).1.get 0
      = some (LogicalPlan.source [1, 2, 3]) := by
  constructor
  · exact ((C4_transformations_nonmutating.2.2.2.2.2.2.2 0 ([], []) "bogus"
      (fun pl _ _ _ _ => Except.ok pl)) ⟨[LogicalPlan.source [1, 2, 3]]⟩ 0).2.2
      (.dataFusion (joinErrorMessage "bogus")) rfl
  · have h := ((C4_transformations_nonmutating.2.2.2.2.2.2.1 5)
      ⟨[LogicalPlan.source [1, 2, 3]]⟩ 0).1 0 (by decide)
    rw [h]
    rfl

/-! ### Join-type resolution (C1) -/

/-- C1: the seven tokens inner, left, right, full, semi, anti, right_semi
resolve to Inner, Left, Right, Full, LeftSemi, LeftAnti, RightSemi
respectively; any other token makes `join` fail with an error whose message
contains the offending token verbatim, before any engine call, leaving the
store untouched — no plan is built. -/
theorem C1_join_type_resolution (how : String)
    (h1 : how ≠ "inner") (h2 : how ≠ "left") (h3 : how ≠ "right")
    (h4 : how ≠ "full") (h5 : how ≠ "semi") (h6 : how ≠ "anti")
    (h7 : how ≠ "right_semi") :
    (joinTypeOfHow "inner" = .ok .Inner ∧ joinTypeOfHow "left" = .ok .Left ∧
     joinTypeOfHow "right" = .ok .Right ∧ joinTypeOfHow "full" = .ok .Full ∧
     joinTypeOfHow "semi" = .ok .LeftSemi ∧ joinTypeOfHow "anti" = .ok .LeftAnti ∧
     joinTypeOfHow "right_semi" = .ok .RightSemi) ∧
    joinTypeOfHow how = .error (joinErrorMessage how) ∧
    List.IsInfix how.data (joinErrorMessage how).data ∧
    (∀ right jk ej s i,
      joinM right jk how ej s i = (s, .error (.dataFusion (joinErrorMessage how)))) := by
  have hres : joinTypeOfHow how = .error (joinErrorMessage how) := by
    simp [joinTypeOfHow, h1, h2, h3, h4, h5, h6, h7]
  refine ⟨⟨rfl, rfl, rfl, rfl, rfl, rfl, rfl⟩, hres, ?_, ?_⟩
  · exact ⟨"The join type ".data, " does not exist or is not implemented".data, rfl⟩
  · intro right jk ej s i
    simp [joinM, hres]

/-- Witness for C1 at the token "bogus". -/
theorem C1_join_type_resolution_witness :
    joinTypeOfHow "bogus"
      = .error "The join type bogus does not exist or is not implemented" :=
  (C1_join_type_resolution "bogus" (by decide) (by decide) (by decide) (by decide)
    (by decide) (by decide) (by decide)).2.1

/-! ### Limit (C7) -/

/-- C7: `limit(count)` constructs a limit plan node with offset exactly zero
and fetch exactly `count`, and under the engine's row semantics that node
truncates the input to its first `count` rows. -/
theorem C7_limit_node (count : Nat) (s : Store) (i : Nat) (pl : LogicalPlan)
    (h : s.get i = some pl) :
    limitM count s i
      = ((s.alloc (.limit 0 (some count) pl)).1, .ok s.plans.length) ∧
    (LogicalPlan.limit 0 (some count) pl).run = pl.run.take count := by
  constructor
  · simp [limitM, transform, h, engineLimit, Store.alloc]
  · simp [LogicalPlan.run]

/-- Witness for C7 on a three-row source relation limited to two rows. -/
theorem C7_limit_node_witness :
    limitM 2 ⟨[LogicalPlan.source [10, 20, 30]]⟩ 0
      = (⟨[LogicalPlan.source [10, 20, 30],
            LogicalPlan.limit 0 (some 2) (LogicalPlan.source [10, 20, 30])]⟩, .ok 1) ∧
    (LogicalPlan.limit 0 (some 2) (LogicalPlan.source [10, 20, 30])).run = [10, 20] := by
  have h := C7_limit_node 2 ⟨[LogicalPlan.source [10, 20, 30]]⟩ 0
    (LogicalPlan.source [10, 20, 30]) rfl
  exact ⟨h.1.trans (by rfl), h.2.trans (by decide)⟩

/-! ### show (C5) and explain (C6) -/

/-- C5: `show(num)` is observationally equivalent to executing
`limit(num).collect()` and pretty-printing the content of the resulting
batches — both produce the same output or the same error for every engine
behaviour; and when `num` is not supplied the pyo3 default substitutes 20. -/
theorem C5_show_equiv (num : Nat)
    (engine_collect : LogicalPlan → Except PyErr (List RecordBatch))
    (pretty_format : List RecordBatch → Except String String)
    (s : Store) (i : Nat) :
    (showM num engine_collect pretty_format s i).2
      = (limitCollectPrintM num engine_collect pretty_format s i).2 ∧
    showPyM none engine_collect pretty_format s i
      = showM 20 engine_collect pretty_format s i ∧
    showPyM (some num) engine_collect pretty_format s i
      = showM num engine_collect pretty_format s i := by
  refine ⟨?_, rfl, rfl⟩
  cases h : s.get i with
  | none => simp [showM, limitCollectPrintM, limitM, transform, h]
  | some pl =>
    have halloc := Store.get_alloc_self s (.limit 0 (some num) pl)
    cases hc : engine_collect (.limit 0 (some num) pl) with
    | error e =>
      simp [showM, limitCollectPrintM, limitM, transform, h, engineLimit,
        collectM, halloc, hc]
    | ok batches =>
      simp [showM, limitCollectPrintM, limitM, transform, h, engineLimit,
        collectM, halloc, hc, List.map_map, Function.comp_def]

/-- C6: for every plan and flags, `explainString(verbose, analyze)` returns,
as a single formatted string, exactly the content `explain(verbose, analyze)`
pretty-prints — both collect the batches of the engine's explain plan and
format them identically, and both map errors the same way. -/
theorem C6_explain_string_equiv (verbose analyze : Bool)
    (engine_explain : Bool → Bool → LogicalPlan → Except PyErr LogicalPlan)
    (engine_collect : LogicalPlan → Except PyErr (List RecordBatch))
    (pretty_format : List RecordBatch → Except String String)
    (s : Store) (i : Nat) :
    explain_stringM verbose analyze engine_explain engine_collect pretty_format s i
      = explainM verbose analyze engine_explain engine_collect pretty_format s i := by
  cases h : s.get i with
  | none => simp [explainM, explain_stringM, h]
  | some pl =>
    cases he : engine_explain verbose analyze pl with
    | error e => simp [explainM, explain_stringM, h, he]
    | ok dfp =>
      cases hc : engine_collect dfp with
      | error e => simp [explainM, explain_stringM, h, he, hc]
      | ok batches =>
        cases hf : pretty_format batches with
        | error e => simp [explainM, explain_stringM, printBatches, h, he, hc, hf]
        | ok out => simp [explainM, explain_stringM, printBatches, h, he, hc, hf]

/-! ### Indexed access (C3) -/

theorem extractStrs_map_str (ks : List String) :
    extractStrs (ks.map PyVal.str) = .ok ks := by
  induction ks with
  | nil => rfl
  | cons k rest ih => simp [extractStrs, extractStr, ih]

theorem extractStrs_of_nonStr (items : List PyVal)
    (h : ∃ v ∈ items, v.isStr = false) :
    extractStrs items = .error .extractFailed := by
  induction items with
  | nil => simp at h
  | cons v rest ih =>
    cases v with
    | nonStr t => simp [extractStrs, extractStr]
    | str sv =>
      have hrest : ∃ w ∈ rest, w.isStr = false := by
        rcases h with ⟨w, hw, hws⟩
        rcases List.mem_cons.mp hw with heq | hmem
        · rw [heq] at hws; simp [PyVal.isStr] at hws
        · exact ⟨w, hmem, hws⟩
      simp [extractStrs, extractStr, ih hrest]

/-- C3 counterexample: a tuple containing a non-string is a key of "other
shape", yet `__getitem__` fails with the propagated element-extraction error,
not with the InvalidIndexType error (the explicit `PyTypeError` whose message
is `invalidIndexMessage`). -/
theorem C3_indexed_access_counterexample :
    getitemM (PyKey.tuple [PyVal.nonStr 0]) (fun _ pl => Except.ok pl)
        ⟨[LogicalPlan.source []]⟩ 0
      = (⟨[LogicalPlan.source []]⟩, Except.error PyErr.extractFailed) ∧
    PyErr.extractFailed ≠ PyErr.typeError invalidIndexMessage := by
  exact ⟨rfl, by decide⟩

/-- C3 (amended): indexed access with a single string key is observationally
equivalent to `selectColumns([key])`; with a tuple or list of strings it is
equivalent to `selectColumns(keys)`; a non-string non-sequence key, or a list
containing a non-string item, fails with the InvalidIndexType error; a tuple
containing a non-string item fails with the propagated element-extraction
error instead.  In every failing case no builder is returned and the store is
unchanged. -/
theorem C3_indexed_access (k : String) (ks : List String)
    (eng : List String → LogicalPlan → Except PyErr LogicalPlan)
    (s : Store) (i : Nat) :
    getitemM (.str k) eng s i = select_columnsM [k] eng s i ∧
    getitemM (.tuple (ks.map PyVal.str)) eng s i = select_columnsM ks eng s i ∧
    getitemM (.list (ks.map PyVal.str)) eng s i = select_columnsM ks eng s i ∧
    (∀ t, getitemM (.other t) eng s i
      = (s, .error (.typeError invalidIndexMessage))) ∧
    (∀ items, (∃ v ∈ items, v.isStr = false) →
      getitemM (.list items) eng s i
        = (s, .error (.typeError invalidIndexMessage))) ∧
    (∀ items, (∃ v ∈ items, v.isStr = false) →
      getitemM (.tuple items) eng s i = (s, .error PyErr.extractFailed)) := by
  refine ⟨rfl, ?_, ?_, fun t => rfl, ?_, ?_⟩
  · simp [getitemM, extractStrs_map_str]
  · simp [getitemM, extractStrs_map_str]
  · intro items h
    simp [getitemM, extractStrs_of_nonStr items h]
  · intro items h
    simp [getitemM, extractStrs_of_nonStr items h]

/-- Witness for C3 at concrete keys: a string key equals the corresponding
column selection, and a list containing a non-string yields the
InvalidIndexType error. -/
theorem C3_indexed_access_witness :
    getitemM (PyKey.str "x") (fun _ pl => Except.ok pl) ⟨[LogicalPlan.source []]⟩ 0
      = select_columnsM ["x"] (fun _ pl => Except.ok pl) ⟨[LogicalPlan.source []]⟩ 0 ∧
    getitemM (PyKey.list [PyVal.nonStr 1]) (fun _ pl => Except.ok pl)
        ⟨[LogicalPlan.source []]⟩ 0
      = (⟨[LogicalPlan.source []]⟩, Except.error (PyErr.typeError invalidIndexMessage)) := by
  have h := C3_indexed_access "x" [] (fun _ pl => Except.ok pl)
    ⟨[LogicalPlan.source []]⟩ 0
  exact ⟨h.1, h.2.2.2.2.1 [PyVal.nonStr 1] ⟨PyVal.nonStr 1, by decide, rfl⟩⟩

/-! ### Window construction (C2) -/

/-- C2: the source calls `find_df_window_func(name).unwrap()`, so whenever the
name does not resolve against the engine's window-function name table the call
panics — it does not return a recoverable error to the caller, contradicting
both the spec's UnresolvedWindowFunction taxonomy entry and the function's own
`PyResult` signature.  When the name resolves, the call does return a
WindowFunctionCall carrying the given args, partition keys and order keys. -/
theorem C2_window_unresolved_panics
    (find : String → Option WindowFun) (name : String) (args : List Expr)
    (partition_by order_by : Option (List Expr)) :
    (find name = none →
      window find name args partition_by order_by = .panicked ∧
      ∀ e, window find name args partition_by order_by ≠ .ok e) ∧
    (∀ f, find name = some f →
      window find name args partition_by order_by
        = .ok (.windowFunction f args (partition_by.getD []) (order_by.getD [])
            (WindowFrame.new order_by.isSome))) := by
  constructor
  · intro h
    constructor
    · simp [window, h]
    · intro e
      simp [window, h]
  · intro f h
    simp [window, h]

/-- Witness for C2: a concrete unresolved name panics, and a concrete resolved
name builds the window-function expression. -/
theorem C2_window_unresolved_panics_witness :
    window (fun _ => none) "no_such_window_fn" [] none none = .panicked ∧
    window (fun _ => some .rowNumber) "row_number" [Expr.column "a"]
        (some [Expr.column "p"]) none
      = .ok (.windowFunction .rowNumber [Expr.column "a"] [Expr.column "p"] []
          (WindowFrame.new false)) := by
  constructor
  · exact ((C2_window_unresolved_panics (fun _ => none) "no_such_window_fn" []
      none none).1 rfl).1
  · exact (C2_window_unresolved_panics (fun _ => some .rowNumber) "row_number"
      [Expr.column "a"] (some [Expr.column "p"]) none).2 .rowNumber rfl

end Ballista
